import Mathlib

/-!
Shallow embedding of the nuki-sesami door state machine (repository
michelm/nuki-sesami) and proofs about its specification claims.

The embedding covers:
* the data model: `NukiLockState`, `NukiLockAction`, `NukiDoorsensorState`,
  `NukiLockTrigger`, `NukiLockActionEvent` (from `src/nuki_sesami/lock.py`),
  the two-state-model enums of `src/nuki_sesami/door_state.py`, and the
  three-state-model enums of the module `nuki_sesami/state.py` (that module's
  file is absent from the source tree; its enums are modelled from the spec,
  see `DoorState` below);
* the asyncio door state machine of `src/nuki_sesami/door.py` together with
  the pushbutton strategies of `src/nuki_sesami/logic.py` (namespace `Door`);
* the historical asyncio variant of `src/nuki_sesami/controller.py`
  (namespace `Ctrl`);
* the paho-mqtt historical variant of `src/nuki_sesami/door_controller.py`
  (namespace `DC`), including its per-message exception handling;
* the mqtt payload parsing performed by the receivers.

Mutable methods become pure functions `state → state × effects`; publishing
to mqtt, pulsing the opendoor relay and starting background timers are
recorded as explicit `Effect` values, mirroring the design note of the spec
("setter returns a list of publish-effects to perform").
-/

namespace NukiSesami

/-! ## Data model: `src/nuki_sesami/lock.py` -/

/-- `NukiLockState` from `lock.py`. -/
inductive NukiLockState where
  | uncalibrated
  | locked
  | unlocking
  | unlocked
  | locking
  | unlatched
  | unlocked2
  | unlatching
  | boot_run
  | motor_blocked
  | undefined
  deriving DecidableEq, Repr

/-- Integer values of `NukiLockState` (IntEnum values in `lock.py`). -/
def NukiLockState.toInt : NukiLockState → Int
  | .uncalibrated => 0
  | .locked => 1
  | .unlocking => 2
  | .unlocked => 3
  | .locking => 4
  | .unlatched => 5
  | .unlocked2 => 6
  | .unlatching => 7
  | .boot_run => 253
  | .motor_blocked => 254
  | .undefined => 255

/-- `NukiLockState(i)`: the enum member with value `i`, or a `ValueError`
(`none`) when `i` is out of range. -/
def NukiLockState.ofInt (i : Int) : Option NukiLockState :=
  if i = 0 then some .uncalibrated
  else if i = 1 then some .locked
  else if i = 2 then some .unlocking
  else if i = 3 then some .unlocked
  else if i = 4 then some .locking
  else if i = 5 then some .unlatched
  else if i = 6 then some .unlocked2
  else if i = 7 then some .unlatching
  else if i = 253 then some .boot_run
  else if i = 254 then some .motor_blocked
  else if i = 255 then some .undefined
  else none

/-- `NukiLockAction` from `lock.py`. -/
inductive NukiLockAction where
  | unlock
  | lock
  | unlatch
  | lock_and_go1
  | lock_and_go2
  | full_lock
  | fob
  | button
  deriving DecidableEq, Repr

/-- Integer values of `NukiLockAction`. -/
def NukiLockAction.toInt : NukiLockAction → Int
  | .unlock => 1
  | .lock => 2
  | .unlatch => 3
  | .lock_and_go1 => 4
  | .lock_and_go2 => 5
  | .full_lock => 6
  | .fob => 80
  | .button => 90

/-- `NukiLockAction(i)` with `ValueError` as `none`. -/
def NukiLockAction.ofInt (i : Int) : Option NukiLockAction :=
  if i = 1 then some .unlock
  else if i = 2 then some .lock
  else if i = 3 then some .unlatch
  else if i = 4 then some .lock_and_go1
  else if i = 5 then some .lock_and_go2
  else if i = 6 then some .full_lock
  else if i = 80 then some .fob
  else if i = 90 then some .button
  else none

/-- `NukiDoorsensorState` from `lock.py`. -/
inductive NukiDoorsensorState where
  | deactivated
  | door_closed
  | door_opened
  | door_state_unknown
  | calibrating
  | uncalibrated
  | tampered
  | unknown
  deriving DecidableEq, Repr

/-- `NukiDoorsensorState(i)` with `ValueError` as `none`. -/
def NukiDoorsensorState.ofInt (i : Int) : Option NukiDoorsensorState :=
  if i = 1 then some .deactivated
  else if i = 2 then some .door_closed
  else if i = 3 then some .door_opened
  else if i = 4 then some .door_state_unknown
  else if i = 5 then some .calibrating
  else if i = 16 then some .uncalibrated
  else if i = 240 then some .tampered
  else if i = 255 then some .unknown
  else none

/-- `NukiLockTrigger` from `lock.py`. -/
inductive NukiLockTrigger where
  | system_bluetooth
  | reserved
  | button
  | automatic
  | autolock
  | homekit
  | mqtt
  deriving DecidableEq, Repr

/-- `NukiLockTrigger(i)` with `ValueError` as `none`. -/
def NukiLockTrigger.ofInt (i : Int) : Option NukiLockTrigger :=
  if i = 0 then some .system_bluetooth
  else if i = 1 then some .reserved
  else if i = 2 then some .button
  else if i = 3 then some .automatic
  else if i = 6 then some .autolock
  else if i = 171 then some .homekit
  else if i = 172 then some .mqtt
  else none

/-- `NukiLockActionEvent` from `lock.py`: the last received lock action event.
The constructor records `datetime.datetime.now()` as timestamp; here the
current time is passed in explicitly as a `Nat`. -/
structure NukiLockActionEvent where
  action : NukiLockAction
  trigger : NukiLockTrigger
  auth_id : Int
  code_id : Int
  auto_unlock : Bool
  timestamp : Nat
  deriving DecidableEq, Repr

end NukiSesami

namespace NukiSesami

/-! ## Data model: the module `nuki_sesami/state.py`

The file `state.py` is absent from the source tree, although `door.py`,
`logic.py`, `controller.py` and others import `DoorState`, `DoorMode`,
`DoorRequestState`, `DoorOpenTrigger` and `PushbuttonLogic` from it.  Its
enums are therefore modelled from the spec. -/

/-- Modelled from the spec: `DoorState` of the missing module
`nuki_sesami/state.py` — the three-state model "closed, opened, openhold";
the toggle cycle "closed → opened → openhold → closed" obtained by
"(state + 1) modulo the 3-valued enum" fixes the integer values
closed = 0, opened = 1, openhold = 2. -/
inductive DoorState where
  | closed
  | opened
  | openhold
  deriving DecidableEq, Repr

/-- Integer value of a `DoorState`. -/
def DoorState.toInt : DoorState → Int
  | .closed => 0
  | .opened => 1
  | .openhold => 2

/-- `DoorState(i)` with `ValueError` as `none`. -/
def DoorState.ofInt (i : Int) : Option DoorState :=
  if i = 0 then some .closed
  else if i = 1 then some .opened
  else if i = 2 then some .openhold
  else none

/-- `DoorState((state + 1) % len(DoorState))`, the state-advance expression of
`ToggleStrategy.on_pushbutton_pressed` in `logic.py`.  The modulus keeps the
value in range, so the enum construction cannot fail; the `getD` default is
unreachable. -/
def DoorState.next (s : DoorState) : DoorState :=
  (DoorState.ofInt ((s.toInt + 1) % 3)).getD DoorState.closed

/-- Modelled from the spec: `DoorMode` of the missing `state.py` —
"`openclose` when DoorState ≠ openhold, else `openhold`", with integer
payloads openclose = 0, openhold = 1 as in `door_state.py`'s isomorphic
enum. -/
inductive DoorMode where
  | openclose
  | openhold
  deriving DecidableEq, Repr

/-- Integer value of a `DoorMode`. -/
def DoorMode.toInt : DoorMode → Int
  | .openclose => 0
  | .openhold => 1

/-- Modelled from the spec: `DoorRequestState` of the missing `state.py` —
"none, open, close, openhold"; integer values taken from the isomorphic
enum in `door_state.py` (none = 0, close = 1, open = 2, openhold = 3).
`open` is a Lean keyword, hence the constructor name `open'`. -/
inductive DoorRequestState where
  | none
  | close
  | open'
  | openhold
  deriving DecidableEq, Repr

/-- `DoorRequestState(i)` with `ValueError` as `none`. -/
def DoorRequestState.ofInt (i : Int) : Option DoorRequestState :=
  if i = 0 then some .none
  else if i = 1 then some .close
  else if i = 2 then some .open'
  else if i = 3 then some .openhold
  else none

/-- Modelled from the spec: `DoorOpenTrigger` of the missing `state.py`;
the members referenced by the code under `src/` are `lock_unlatched`
(live `unlatched` status push) and `unlatch_timeout` (fallback timer). -/
inductive DoorOpenTrigger where
  | lock_unlatched
  | unlatch_timeout
  deriving DecidableEq, Repr

/-! ## Data model: `src/nuki_sesami/door_state.py` (two-state model)

These enums serve the historical `door_controller.py` variant; they live in
namespace `DC`. -/

namespace DC

/-- `DoorState` from `door_state.py`: openclose1 = 0, openclose2 = 1,
openhold = 2. -/
inductive DoorState where
  | openclose1
  | openclose2
  | openhold
  deriving DecidableEq, Repr

/-- Integer value of a `DC.DoorState`. -/
def DoorState.toInt : DoorState → Int
  | .openclose1 => 0
  | .openclose2 => 1
  | .openhold => 2

/-- `DoorState(i)` with `ValueError` as `none`. -/
def DoorState.ofInt (i : Int) : Option DoorState :=
  if i = 0 then some .openclose1
  else if i = 1 then some .openclose2
  else if i = 2 then some .openhold
  else none

/-- `next_door_state` from `door_state.py`:
`DoorState((state + 1) % len(DoorState))`.  The modulus keeps the value in
range, so the enum construction cannot fail; the `getD` default is
unreachable. -/
def next_door_state (s : DoorState) : DoorState :=
  (DoorState.ofInt ((s.toInt + 1) % 3)).getD DoorState.openclose1

/-- `DoorMode` from `door_state.py`: openclose = 0, openhold = 1. -/
inductive DoorMode where
  | openclose
  | openhold
  deriving DecidableEq, Repr

/-- Integer value of a `DC.DoorMode`. -/
def DoorMode.toInt : DoorMode → Int
  | .openclose => 0
  | .openhold => 1

/-- `DoorRequestState` from `door_state.py`: none = 0, close = 1, open = 2,
openhold = 3 (`open` is a Lean keyword, hence `open'`). -/
inductive DoorRequestState where
  | none
  | close
  | open'
  | openhold
  deriving DecidableEq, Repr

/-- `DoorRequestState(i)` with `ValueError` as `none`. -/
def DoorRequestState.ofInt (i : Int) : Option DoorRequestState :=
  if i = 0 then some .none
  else if i = 1 then some .close
  else if i = 2 then some .open'
  else if i = 3 then some .openhold
  else none

end DC

/-! ## Observable effects

Mirroring the spec's design note, every mutating method is embedded as a
pure function returning the successor state together with the list of
observable effects it performs, in program order. -/

/-- Names of the three relays, as used in the `sesami/{device}/relay/{name}`
topics. -/
inductive RelayName where
  | opendoor
  | openhold
  | openclose
  deriving DecidableEq, Repr

/-- Observable effects of the door state machines: mqtt publications, the
momentary opendoor relay pulse (gpio blink plus its mqtt echo), and the
launching of background watchdog coroutines. -/
inductive Effect where
  | publishState (v : Int)
  | publishMode (v : Int)
  | publishRelay (name : RelayName) (v : Int)
  | publishLockAction (a : NukiLockAction)
  | publishVersion
  | pulseOpendoor
  | startUnlatchTimer
  | startDoorClosedTimer
  deriving DecidableEq, Repr

end NukiSesami

namespace NukiSesami

/-! ## The `ElectricDoor` machine of `src/nuki_sesami/door.py`

Handlers that consult the wall clock (the state setter records
`datetime.datetime.now()`, `on_lock_action_event` timestamps the event)
receive the current time as an explicit `now : Nat` argument. -/

/-- Mutable attributes of `ElectricDoor` in `door.py`.  The three relay
booleans are the `value` of the gpiozero output devices (`opendoor` is only
ever pulsed via `blink`, recorded as an effect, so its steady value stays
`false`). -/
structure Door where
  nuki_state : NukiLockState
  nuki_doorsensor : NukiDoorsensorState
  nuki_action : Option NukiLockAction
  nuki_action_event : Option NukiLockActionEvent
  opendoor : Bool
  openhold_mode : Bool
  openclose_mode : Bool
  state : DoorState
  state_changed : Nat
  door_opened : Bool
  deriving DecidableEq, Repr

namespace Door

/-- `ElectricDoor.__init__`: initial attribute values (gpiozero output
devices start de-energized). -/
def init : Door where
  nuki_state := .undefined
  nuki_doorsensor := .unknown
  nuki_action := none
  nuki_action_event := none
  opendoor := false
  openhold_mode := false
  openclose_mode := false
  state := .closed
  state_changed := 0
  door_opened := false

/-- The `mode` property: `DoorMode.openhold if self._state == DoorState.openhold
else DoorMode.openclose`. -/
def mode (d : Door) : DoorMode :=
  if d.state = DoorState.openhold then DoorMode.openhold else DoorMode.openclose

/-- The `state` property setter.  Early-returns when the value is unchanged;
otherwise resets the door-opened latch when entering `closed`, records the
state and timestamp, and publishes state and (derived) mode.  The machine is
taken as activated, so `self._mqtt` is set and the publishes happen. -/
def state_setter (now : Nat) (d : Door) (s : DoorState) : Door × List Effect :=
  if s = d.state then (d, [])
  else
    let d1 := if s = DoorState.closed then { d with door_opened := false } else d
    let d2 := { d1 with state := s, state_changed := now }
    (d2, [Effect.publishState s.toInt, Effect.publishMode d2.mode.toInt])

/-- `request_lock_action`: publish the action on `nuki/{device}/lockAction`. -/
def request_lock_action (d : Door) (action : NukiLockAction) : Door × List Effect :=
  (d, [Effect.publishLockAction action])

/-- `unlatch`: early-return when the lock is already `unlatching`, otherwise
request `LockAction.unlatch`. -/
def unlatch (d : Door) : Door × List Effect :=
  if d.nuki_state = NukiLockState.unlatching then (d, [])
  else d.request_lock_action NukiLockAction.unlatch

/-- `open(trigger)`: pulse the opendoor relay (`blink` on the gpio device plus
its mqtt echo, collapsed into the single `pulseOpendoor` effect).  `open` is a
Lean keyword, hence `open'`. -/
def open' (d : Door) (_trigger : DoorOpenTrigger) : Door × List Effect :=
  (d, [Effect.pulseOpendoor])

/-- `openhold(trigger)`: energize the openhold-mode relay, de-energize the
openclose-mode relay, publish the three relay states and mode `openhold`. -/
def openhold (d : Door) (_trigger : DoorOpenTrigger) : Door × List Effect :=
  let d1 := { d with openhold_mode := true, openclose_mode := false }
  (d1, [Effect.publishRelay .opendoor 0, Effect.publishRelay .openhold 1,
        Effect.publishRelay .openclose 0, Effect.publishMode DoorMode.openhold.toInt])

/-- `close`: when the lock is `locked` or `locking`, first call `unlatch`;
then de-energize openhold mode, energize openclose mode, publish the relay
states and mode `openclose`. -/
def close (d : Door) : Door × List Effect :=
  let p :=
    if d.nuki_state = NukiLockState.locked ∨ d.nuki_state = NukiLockState.locking then
      d.unlatch
    else (d, [])
  let d1 := { p.1 with openhold_mode := false, openclose_mode := true }
  (d1, p.2 ++ [Effect.publishRelay .opendoor 0, Effect.publishRelay .openhold 0,
               Effect.publishRelay .openclose 1, Effect.publishMode DoorMode.openclose.toInt])

/-- `on_lock_unlatched(trigger)`: guarded by the `_door_opened` latch; when
not yet latched, set the latch and either engage openhold mode (when
`door_state == openhold`) or pulse the opendoor relay. -/
def on_lock_unlatched (d : Door) (trigger : DoorOpenTrigger) : Door × List Effect :=
  if d.door_opened then (d, [])
  else
    let d1 := { d with door_opened := true }
    if d1.state = DoorState.openhold then d1.openhold trigger else d1.open' trigger

/-- `on_lock_state(lock)`: record the lock state; entering `unlatching`
starts the unlatch-confirmation timer, entering `unlatched` invokes the
unlatch-confirmed handling. -/
def on_lock_state (d : Door) (lock : NukiLockState) : Door × List Effect :=
  let d1 := { d with nuki_state := lock }
  if lock = NukiLockState.unlatching then (d1, [Effect.startUnlatchTimer])
  else if lock = NukiLockState.unlatched then
    d1.on_lock_unlatched DoorOpenTrigger.lock_unlatched
  else (d1, [])

/-- `on_lock_action(action)`: record the last commanded action. -/
def on_lock_action (d : Door) (action : NukiLockAction) : Door × List Effect :=
  ({ d with nuki_action := some action }, [])

/-- `on_lock_action_event(...)`: store the event, timestamped now. -/
def on_lock_action_event (now : Nat) (d : Door) (action : NukiLockAction)
    (trigger : NukiLockTrigger) (auth_id code_id : Int) (auto_unlock : Bool) :
    Door × List Effect :=
  let ev : NukiLockActionEvent := ⟨action, trigger, auth_id, code_id, auto_unlock, now⟩
  ({ d with nuki_action_event := some ev }, [])

/-- `on_doorsensor_state(sensor)`: record the sensor; `door_closed` while
`opened` forces `closed`, `door_opened` while `closed` forces `opened` (two
sequential `if`s, the second reading the possibly-updated state). -/
def on_doorsensor_state (now : Nat) (d : Door) (sensor : NukiDoorsensorState) :
    Door × List Effect :=
  let d0 := { d with nuki_doorsensor := sensor }
  let p1 :=
    if sensor = NukiDoorsensorState.door_closed ∧ d0.state = DoorState.opened then
      d0.state_setter now DoorState.closed
    else (d0, [])
  let p2 :=
    if sensor = NukiDoorsensorState.door_opened ∧ p1.1.state = DoorState.closed then
      p1.1.state_setter now DoorState.opened
    else (p1.1, [])
  (p2.1, p1.2 ++ p2.2)

/-- `on_door_request(request)`: the remote request table of `door.py`. -/
def on_door_request (now : Nat) (d : Door) (request : DoorRequestState) :
    Door × List Effect :=
  match request with
  | .none => (d, [])
  | .open' =>
    if d.state = DoorState.closed then
      let p1 := d.state_setter now DoorState.opened
      let p2 := p1.1.unlatch
      (p2.1, p1.2 ++ p2.2)
    else (d, [])
  | .close =>
    if d.state = DoorState.openhold then
      let p1 := d.state_setter now DoorState.opened
      let p2 := p1.1.close
      (p2.1, p1.2 ++ p2.2)
    else (d, [])
  | .openhold =>
    if d.state ≠ DoorState.openhold then
      let p1 := d.state_setter now DoorState.openhold
      let p2 := p1.1.unlatch
      (p2.1, p1.2 ++ p2.2)
    else (d, [])

/-- `activate`: de-energize opendoor and openhold mode, energize openclose
mode, start the auto-close watchdog, publish the relay states, version,
state and mode. -/
def activate (d : Door) : Door × List Effect :=
  let d1 := { d with opendoor := false, openhold_mode := false, openclose_mode := true }
  (d1, [Effect.startDoorClosedTimer,
        Effect.publishRelay .opendoor 0, Effect.publishRelay .openhold 0,
        Effect.publishRelay .openclose 1, Effect.publishVersion,
        Effect.publishState d1.state.toInt, Effect.publishMode d1.mode.toInt])

end Door

/-- `timed_lock_unlatched` from `door.py`: after sleeping `unlatch_time`,
exit when the lock is no longer `unlatching`, otherwise invoke
`on_lock_unlatched(DoorOpenTrigger.unlatch_timeout)`.  `d` is the machine
state observed at wake time; the `Bool` records whether the unlatch-confirmed
handling was invoked. -/
def timed_lock_unlatched (d : Door) : Door × List Effect × Bool :=
  if d.nuki_state ≠ NukiLockState.unlatching then (d, [], false)
  else
    let p := d.on_lock_unlatched DoorOpenTrigger.unlatch_timeout
    (p.1, p.2, true)

end NukiSesami

namespace NukiSesami

/-! ## Pushbutton strategies of `src/nuki_sesami/logic.py` -/

/-- The three `PushbuttonStrategy` subclasses of `logic.py`, represented as a
tagged variant (spec design note: "represent as a tagged-variant/strategy-object"). -/
inductive PushbuttonStrategy where
  | OpenHoldStrategy
  | OpenStrategy
  | ToggleStrategy
  deriving DecidableEq, Repr

namespace Door

/-- `ElectricDoor.on_pushbutton_pressed`, delegated to the active strategy's
`on_pushbutton_pressed(door)` from `logic.py`.  Each strategy assigns the
next door state through the setter and then inspects `door.state` (the value
after the assignment) to pick the follow-up action. -/
def on_pushbutton_pressed (now : Nat) (strategy : PushbuttonStrategy) (d : Door) :
    Door × List Effect :=
  match strategy with
  | .OpenHoldStrategy =>
    let next_state :=
      if d.state = DoorState.closed then DoorState.openhold else DoorState.closed
    let p1 := d.state_setter now next_state
    if p1.1.state = DoorState.openhold then
      let p2 := p1.1.unlatch
      (p2.1, p1.2 ++ p2.2)
    else
      let p2 := p1.1.close
      (p2.1, p1.2 ++ p2.2)
  | .OpenStrategy =>
    let p1 := d.state_setter now DoorState.opened
    let p2 := p1.1.unlatch
    (p2.1, p1.2 ++ p2.2)
  | .ToggleStrategy =>
    let next_state := DoorState.next d.state
    let p1 := d.state_setter now next_state
    if p1.1.state = DoorState.closed then
      let p2 := p1.1.unlatch
      (p2.1, p1.2 ++ p2.2)
    else if p1.1.state = DoorState.opened then
      let p2 := p1.1.close
      (p2.1, p1.2 ++ p2.2)
    else (p1.1, p1.2)

end Door

/-- An external stimulus delivered to the `door.py` machine: one public entry
point together with its argument, plus the wake-up of the in-flight
unlatch-confirmation timer. -/
inductive Event where
  | lockState (l : NukiLockState)
  | lockAction (a : NukiLockAction)
  | lockActionEvent (a : NukiLockAction) (t : NukiLockTrigger)
      (auth_id code_id : Int) (auto_unlock : Bool)
  | doorsensorState (s : NukiDoorsensorState)
  | doorRequest (r : DoorRequestState)
  | pushbutton (strategy : PushbuttonStrategy)
  | unlatchTimerFires
  deriving DecidableEq, Repr

/-- Dispatch one event to the corresponding `door.py` handler. -/
def Door.handle (now : Nat) (d : Door) : Event → Door × List Effect
  | .lockState l => d.on_lock_state l
  | .lockAction a => d.on_lock_action a
  | .lockActionEvent a t auth code au => d.on_lock_action_event now a t auth code au
  | .doorsensorState s => d.on_doorsensor_state now s
  | .doorRequest r => d.on_door_request now r
  | .pushbutton strategy => d.on_pushbutton_pressed now strategy
  | .unlatchTimerFires =>
    let p := timed_lock_unlatched d
    (p.1, p.2.1)

end NukiSesami

namespace NukiSesami

/-! ## The historical `ElectricDoor` machine of `src/nuki_sesami/controller.py`
(namespace `Ctrl`) -/

namespace Ctrl

/-- Mutable attributes of `controller.py`'s `ElectricDoor`.  Unlike `door.py`
it has no `_door_opened` latch but carries `_lock_unlatch_requested`. -/
structure CtrlDoor where
  nuki_state : NukiLockState
  nuki_doorsensor : NukiDoorsensorState
  nuki_action : Option NukiLockAction
  nuki_action_event : Option NukiLockActionEvent
  opendoor : Bool
  openhold_mode : Bool
  openclose_mode : Bool
  state : DoorState
  state_changed : Nat
  lock_unlatch_requested : Bool
  deriving DecidableEq, Repr

/-- `ElectricDoor.__init__` of `controller.py`. -/
def init : CtrlDoor where
  nuki_state := .undefined
  nuki_doorsensor := .unknown
  nuki_action := none
  nuki_action_event := none
  opendoor := false
  openhold_mode := false
  openclose_mode := false
  state := .closed
  state_changed := 0
  lock_unlatch_requested := false

/-- The `mode` property of `controller.py`. -/
def mode (d : CtrlDoor) : DoorMode :=
  if d.state = DoorState.openhold then DoorMode.openhold else DoorMode.openclose

/-- `request_lock_action` of `controller.py`. -/
def request_lock_action (d : CtrlDoor) (action : NukiLockAction) :
    CtrlDoor × List Effect :=
  (d, [Effect.publishLockAction action])

/-- The `state` property setter of `controller.py`: early-return on an equal
value, publish state and mode, and — when entering `closed` while the last
commanded action was `unlatch` — request `unlock` to cancel the unlatch. -/
def state_setter (now : Nat) (d : CtrlDoor) (s : DoorState) : CtrlDoor × List Effect :=
  if s = d.state then (d, [])
  else
    let d1 := { d with state := s, state_changed := now }
    let ef := [Effect.publishState s.toInt, Effect.publishMode (mode d1).toInt]
    if s = DoorState.closed ∧ d1.nuki_action = some NukiLockAction.unlatch then
      (d1, ef ++ [Effect.publishLockAction NukiLockAction.unlock])
    else (d1, ef)

/-- The `lock_action` property setter of `controller.py` (deduplicating). -/
def lock_action_setter (d : CtrlDoor) (action : NukiLockAction) : CtrlDoor :=
  if d.nuki_action = some action then d else { d with nuki_action := some action }

/-- `unlatch` of `controller.py`: early-return while `unlatching`, otherwise
request `LockAction.unlatch` and set `_lock_unlatch_requested`. -/
def unlatch (d : CtrlDoor) : CtrlDoor × List Effect :=
  if d.nuki_state = NukiLockState.unlatching then (d, [])
  else
    let p := request_lock_action d NukiLockAction.unlatch
    ({ p.1 with lock_unlatch_requested := true }, p.2)

/-- `unlock` of `controller.py`. -/
def unlock (d : CtrlDoor) : CtrlDoor × List Effect :=
  request_lock_action d NukiLockAction.unlock

/-- `open` of `controller.py`: pulse the opendoor relay.  `open` is a Lean
keyword, hence `open'`. -/
def open' (d : CtrlDoor) : CtrlDoor × List Effect :=
  (d, [Effect.pulseOpendoor])

/-- `openhold` of `controller.py`: energize openhold mode, de-energize
openclose mode, publish relays and mode. -/
def openhold (d : CtrlDoor) : CtrlDoor × List Effect :=
  let d1 := { d with openhold_mode := true, openclose_mode := false }
  (d1, [Effect.publishRelay .opendoor 0, Effect.publishRelay .openhold 1,
        Effect.publishRelay .openclose 0, Effect.publishMode DoorMode.openhold.toInt])

/-- `close` of `controller.py`: when the lock is `locked` or `locking` issue
`unlock` (unlike `door.py`, which calls `unlatch` here); then switch the mode
relays to openclose and publish. -/
def close (d : CtrlDoor) : CtrlDoor × List Effect :=
  let p :=
    if d.nuki_state = NukiLockState.locked ∨ d.nuki_state = NukiLockState.locking then
      unlock d
    else (d, [])
  let d1 := { p.1 with openhold_mode := false, openclose_mode := true }
  (d1, p.2 ++ [Effect.publishRelay .opendoor 0, Effect.publishRelay .openhold 0,
               Effect.publishRelay .openclose 1, Effect.publishMode DoorMode.openclose.toInt])

/-- `on_lock_unlatched` of `controller.py`: requires a stored action event;
decides `open_door` from the event's action and trigger (`system_bluetooth`,
or `mqtt` with a locally requested unlatch); resets the event and the
request flag; then opens or engages openhold when `open_door`. -/
def on_lock_unlatched (d : CtrlDoor) : CtrlDoor × List Effect :=
  match d.nuki_action_event with
  | Option.none => (d, [])
  | Option.some ev =>
    let open_door :=
      if ev.action ≠ NukiLockAction.unlatch then false
      else if ev.trigger = NukiLockTrigger.system_bluetooth then true
      else if ev.trigger = NukiLockTrigger.mqtt ∧ d.lock_unlatch_requested then true
      else false
    let d1 := { d with nuki_action_event := none, lock_unlatch_requested := false }
    if open_door then
      if d1.state = DoorState.openhold then openhold d1 else open' d1
    else (d1, [])

/-- `on_lock_state` of `controller.py`. -/
def on_lock_state (d : CtrlDoor) (lock : NukiLockState) : CtrlDoor × List Effect :=
  let d1 := { d with nuki_state := lock }
  if lock = NukiLockState.unlatching then (d1, [Effect.startUnlatchTimer])
  else if lock = NukiLockState.unlatched then on_lock_unlatched d1
  else (d1, [])

/-- `on_lock_action_event` of `controller.py`. -/
def on_lock_action_event (now : Nat) (d : CtrlDoor) (action : NukiLockAction)
    (trigger : NukiLockTrigger) (auth_id code_id : Int) (auto_unlock : Bool) :
    CtrlDoor × List Effect :=
  let ev : NukiLockActionEvent := ⟨action, trigger, auth_id, code_id, auto_unlock, now⟩
  ({ d with nuki_action_event := some ev }, [])

/-- `activate` of `controller.py`: safe relay configuration, start the
auto-close watchdog, request `unlock` (reset a stale 'unlatch' request),
publish relays, version, state and mode. -/
def activate (d : CtrlDoor) : CtrlDoor × List Effect :=
  let d1 := { d with opendoor := false, openhold_mode := false, openclose_mode := true }
  (d1, [Effect.startDoorClosedTimer, Effect.publishLockAction NukiLockAction.unlock,
        Effect.publishRelay .opendoor 0, Effect.publishRelay .openhold 0,
        Effect.publishRelay .openclose 1, Effect.publishVersion,
        Effect.publishState d1.state.toInt, Effect.publishMode (mode d1).toInt])

/-- Outcome of one run of `controller.py`'s `timed_lock_unlatched`. -/
inductive TimerResult where
  | invoked
  | doneUnlatched
  | doneOther
  | timeout
  deriving DecidableEq, Repr

/-- The polling loop of `timed_lock_unlatched` in `controller.py`.  One list
entry per wake-up: the machine state observed at that poll (concurrent
handlers may have changed it between polls); the list is finite because `t`
advances by `check_interval` towards `unlatch_timeout`.  At each wake:
`unlatched` ends the run (handled by `on_lock_state`), `unlatching` with a
stored action event invokes `on_lock_unlatched`, `unlatching` without one
keeps polling, any other lock state ends the run; an exhausted list is the
timeout ("no lock action event received"). -/
def timed_lock_unlatched : List CtrlDoor → TimerResult × List Effect
  | [] => (.timeout, [])
  | d :: rest =>
    if d.nuki_state = NukiLockState.unlatched then (.doneUnlatched, [])
    else if d.nuki_state = NukiLockState.unlatching then
      if d.nuki_action_event ≠ Option.none then (.invoked, (on_lock_unlatched d).2)
      else timed_lock_unlatched rest
    else (.doneOther, [])

end Ctrl

end NukiSesami

namespace NukiSesami

/-! ## Payload parsing

`int(payload)` is modelled by `pyParseInt`: an optional sign followed by
decimal digits, after stripping surrounding whitespace.  (Python's `int`
additionally accepts underscore digit grouping and unicode whitespace; the
model's accepted strings are a subset of Python's, with identical values on
them, which suffices here.)  A `ValueError` is `none`.  Trimming and comma
splitting are implemented structurally over character lists so that every
parse evaluates by kernel reduction. -/

/-- Ascii whitespace stripped by `int()`. -/
def isPySpace (c : Char) : Bool :=
  c = ' ' ∨ c = '\t' ∨ c = '\n' ∨ c = '\r'

/-- Drop leading whitespace. -/
def dropLeadingSpace : List Char → List Char
  | [] => []
  | c :: cs => if isPySpace c then dropLeadingSpace cs else c :: cs

/-- Strip whitespace from both ends. -/
def trimChars (cs : List Char) : List Char :=
  dropLeadingSpace (dropLeadingSpace cs.reverse).reverse

/-- Digits-only parse of a nonempty character list. -/
def pyDigits : List Char → Option Nat
  | [] => none
  | cs =>
    if cs.all Char.isDigit then
      some (cs.foldl (fun n c => 10 * n + (c.toNat - 48)) 0)
    else none

/-- `int(s)` on a character list, with `ValueError` as `none`. -/
def pyParseIntChars (s : List Char) : Option Int :=
  match trimChars s with
  | '-' :: rest => (pyDigits rest).map (fun n => -(n : Int))
  | '+' :: rest => (pyDigits rest).map (fun n => (n : Int))
  | cs => (pyDigits cs).map (fun n => (n : Int))

/-- `int(s)` with `ValueError` as `none`. -/
def pyParseInt (s : String) : Option Int :=
  pyParseIntChars s.toList

/-- `payload.split(",")` over the character list. -/
def splitOnComma : List Char → List (List Char)
  | [] => [[]]
  | c :: cs =>
    match splitOnComma cs with
    | [] => [[c]]
    | g :: gs => if c = ',' then [] :: g :: gs else (c :: g) :: gs

/-- The `lockActionEvent` payload parse of `door.py`'s `mqtt_receiver`:
`ev = [int(e) for e in payload.split(",")]` (every element must parse, else
`ValueError`), then `NukiLockAction(ev[0])`, `NukiLockTrigger(ev[1])`,
`ev[2]`, `ev[3]`, `bool(ev[4])` (an `IndexError` on a short list is also an
exception, hence `none`). -/
def parse_lock_action_event (s : String) :
    Option (NukiLockAction × NukiLockTrigger × Int × Int × Bool) :=
  let parts := (splitOnComma s.toList).map pyParseIntChars
  if parts.all Option.isSome then
    match parts with
    | some a :: some t :: some auth :: some code :: some au :: _ =>
      match NukiLockAction.ofInt a, NukiLockTrigger.ofInt t with
      | some action, some trigger => some (action, trigger, auth, code, au != 0)
      | _, _ => Option.none
    | _ => Option.none
  else Option.none

/-- The subscribed topics, after matching the `{device}` segment.  `other`
covers topics matching none of the handled patterns. -/
inductive Topic where
  | nukiState
  | nukiLockAction
  | nukiLockActionEvent
  | nukiDoorsensorState
  | sesamiRequestState
  | other
  deriving DecidableEq, Repr

/-- A received mqtt message: topic plus decoded payload text. -/
structure Msg where
  topic : Topic
  payload : String
  deriving DecidableEq, Repr

/-! ## The mqtt receive loop of `src/nuki_sesami/door.py`

`mqtt_receiver` iterates over incoming messages with no exception handling:
a payload that fails to parse (`int(...)` raising `ValueError`, an enum
value out of range, or a short `lockActionEvent` list) propagates out of the
`async for` loop and terminates the coroutine. -/

/-- Processing of a single message by `door.py`'s `mqtt_receiver`:
`Except.error ()` is an uncaught exception. -/
def mqtt_receiver_step (now : Nat) (d : Door) (msg : Msg) :
    Except Unit (Door × List Effect) :=
  match msg.topic with
  | .nukiState =>
    match (pyParseInt msg.payload).bind NukiLockState.ofInt with
    | some lock => .ok (d.on_lock_state lock)
    | none => .error ()
  | .nukiLockAction =>
    match (pyParseInt msg.payload).bind NukiLockAction.ofInt with
    | some action => .ok (d.on_lock_action action)
    | none => .error ()
  | .nukiLockActionEvent =>
    match parse_lock_action_event msg.payload with
    | some (action, trigger, auth_id, code_id, auto_unlock) =>
      .ok (d.on_lock_action_event now action trigger auth_id code_id auto_unlock)
    | none => .error ()
  | .nukiDoorsensorState =>
    match (pyParseInt msg.payload).bind NukiDoorsensorState.ofInt with
    | some sensor => .ok (d.on_doorsensor_state now sensor)
    | none => .error ()
  | .sesamiRequestState =>
    match (pyParseInt msg.payload).bind DoorRequestState.ofInt with
    | some request => .ok (d.on_door_request now request)
    | none => .error ()
  | .other => .ok (d, [])

/-- `mqtt_receiver` of `door.py` over a finite message sequence: processes
messages in order; the first uncaught exception aborts the loop, leaving the
remaining messages unprocessed. -/
def mqtt_receiver (now : Nat) : Door → List Msg → Except Unit (Door × List Effect)
  | d, [] => .ok (d, [])
  | d, msg :: rest =>
    match mqtt_receiver_step now d msg with
    | .ok (d1, ef1) =>
      match mqtt_receiver now d1 rest with
      | .ok (d2, ef2) => .ok (d2, ef1 ++ ef2)
      | .error e => .error e
    | .error e => .error e

end NukiSesami

namespace NukiSesami

/-! ## The paho-mqtt `ElectricDoor` machine of `src/nuki_sesami/door_controller.py`
(namespace `DC`), with its per-message exception handling -/

namespace DC

/-- Mutable attributes of `door_controller.py`'s `ElectricDoor` (the
two-state model over `door_state.py`'s `DoorState`). -/
structure DCDoor where
  nuki_state : NukiLockState
  nuki_doorsensor : NukiDoorsensorState
  opendoor : Bool
  openhold_mode : Bool
  openclose_mode : Bool
  state : DoorState
  deriving DecidableEq, Repr

/-- `ElectricDoor.__init__` of `door_controller.py`. -/
def dcInit : DCDoor where
  nuki_state := .undefined
  nuki_doorsensor := .unknown
  opendoor := false
  openhold_mode := false
  openclose_mode := false
  state := .openclose1

/-- The `state` property setter of `door_controller.py`: early-return on an
equal value, otherwise record and publish the state. -/
def state_setter (d : DCDoor) (s : DoorState) : DCDoor × List Effect :=
  if s = d.state then (d, [])
  else ({ d with state := s }, [Effect.publishState s.toInt])

/-- The `mode` property setter of `door_controller.py`: drive the two mode
relays from the requested mode and publish both relay values and the mode. -/
def mode_setter (d : DCDoor) (m : DoorMode) : DCDoor × List Effect :=
  let oh := m = DoorMode.openhold
  let d1 :=
    if oh then { d with openhold_mode := true, openclose_mode := false }
    else { d with openhold_mode := false, openclose_mode := true }
  (d1, [Effect.publishRelay .openhold (if oh then 1 else 0),
        Effect.publishRelay .openclose (if oh then 0 else 1),
        Effect.publishMode m.toInt])

/-- `lock_action` of `door_controller.py`: publish the command. -/
def lock_action (d : DCDoor) (action : NukiLockAction) : DCDoor × List Effect :=
  (d, [Effect.publishLockAction action])

/-- `open` of `door_controller.py`: request `unlatch` unless the lock is
already `unlatched` or `unlatching`. -/
def open' (d : DCDoor) : DCDoor × List Effect :=
  if d.nuki_state = NukiLockState.unlatched ∨ d.nuki_state = NukiLockState.unlatching then
    (d, [])
  else lock_action d NukiLockAction.unlatch

/-- `close` of `door_controller.py`: request `unlock` unless the lock is
`unlatched`, `unlatching`, `unlocked` or `unlocked2`; then set mode
`openclose`. -/
def close (d : DCDoor) : DCDoor × List Effect :=
  let p :=
    if d.nuki_state = NukiLockState.unlatched ∨ d.nuki_state = NukiLockState.unlatching
        ∨ d.nuki_state = NukiLockState.unlocked ∨ d.nuki_state = NukiLockState.unlocked2 then
      (d, [])
    else lock_action d NukiLockAction.unlock
  let q := mode_setter p.1 DoorMode.openclose
  (q.1, p.2 ++ q.2)

/-- `on_lock_state` of `door_controller.py`: on the `unlatching → unlatched`
edge either engage openhold mode or pulse the opendoor relay (publishing
relay value 1); otherwise, leaving the unlatched/unlatching states while in
`openclose2` falls back to `openclose1`; finally record the new lock
state. -/
def on_lock_state (d : DCDoor) (lock : NukiLockState) : DCDoor × List Effect :=
  let p :=
    if d.nuki_state = NukiLockState.unlatching ∧ lock = NukiLockState.unlatched then
      if d.state = DoorState.openhold then mode_setter d DoorMode.openhold
      else (d, [Effect.pulseOpendoor, Effect.publishRelay .opendoor 1])
    else if (lock ≠ NukiLockState.unlatched ∧ lock ≠ NukiLockState.unlatching)
        ∧ d.state = DoorState.openclose2 then
      state_setter d DoorState.openclose1
    else (d, [])
  ({ p.1 with nuki_state := lock }, p.2)

/-- `on_doorsensor_state` of `door_controller.py`: record the sensor. -/
def on_doorsensor_state (d : DCDoor) (sensor : NukiDoorsensorState) :
    DCDoor × List Effect :=
  ({ d with nuki_doorsensor := sensor }, [])

/-- `on_door_request` of `door_controller.py`. -/
def on_door_request (d : DCDoor) (request : DoorRequestState) : DCDoor × List Effect :=
  match request with
  | .none => (d, [])
  | .open' =>
    if d.state = DoorState.openclose1 then
      let p1 := state_setter d DoorState.openclose2
      let p2 := open' p1.1
      (p2.1, p1.2 ++ p2.2)
    else (d, [])
  | .close =>
    if d.state = DoorState.openhold then
      let p1 := state_setter d DoorState.openclose1
      let p2 := close p1.1
      (p2.1, p1.2 ++ p2.2)
    else (d, [])
  | .openhold =>
    if d.state ≠ DoorState.openhold then
      let p1 := state_setter d DoorState.openhold
      let p2 := open' p1.1
      (p2.1, p1.2 ++ p2.2)
    else (d, [])

/-- `mqtt_on_message` of `door_controller.py`.  The whole handler body sits
in a `try`/`except` that logs any exception, so a payload that fails to
parse (or an out-of-range enum value) leaves the machine unchanged and
produces no effect; unhandled topics are merely logged. -/
def mqtt_on_message (d : DCDoor) (msg : Msg) : DCDoor × List Effect :=
  match msg.topic with
  | .nukiState =>
    match (pyParseInt msg.payload).bind NukiLockState.ofInt with
    | some lock => on_lock_state d lock
    | Option.none => (d, [])
  | .nukiDoorsensorState =>
    match (pyParseInt msg.payload).bind NukiDoorsensorState.ofInt with
    | some sensor => on_doorsensor_state d sensor
    | Option.none => (d, [])
  | .sesamiRequestState =>
    match (pyParseInt msg.payload).bind DoorRequestState.ofInt with
    | some request => on_door_request d request
    | Option.none => (d, [])
  | _ => (d, [])

/-- The paho message callback applied to a finite sequence of messages: every
message is processed, none can abort the loop. -/
def mqtt_on_message_list (d : DCDoor) : List Msg → DCDoor × List Effect
  | [] => (d, [])
  | msg :: rest =>
    let p := mqtt_on_message d msg
    let q := mqtt_on_message_list p.1 rest
    (q.1, p.2 ++ q.2)

end DC

end NukiSesami

namespace NukiSesami

/-! ## Observers used by the statements -/

/-- Exactly one of the two mode-select relays is energized (invariant of the
spec's data model: "exactly one of `openhold_mode`/`openclose_mode` is
energized at any time after activation completes"). -/
def relay_mode_exclusive (d : Door) : Prop :=
  (d.openhold_mode = true ∧ d.openclose_mode = false) ∨
    (d.openhold_mode = false ∧ d.openclose_mode = true)

instance (d : Door) : Decidable (relay_mode_exclusive d) := by
  unfold relay_mode_exclusive; infer_instance

/-- Is the effect a lock command published on `nuki/{device}/lockAction`? -/
def Effect.isLockActionCmd : Effect → Bool
  | .publishLockAction _ => true
  | _ => false

/-- Is the effect a door-opening actuation: the momentary opendoor pulse, or
the switch that energizes the openhold-mode relay? -/
def Effect.isDoorOpeningAct : Effect → Bool
  | .pulseOpendoor => true
  | .publishRelay .openhold 1 => true
  | _ => false

/-- The guard that `door.py`'s `mqtt_receiver` places on a message: all the
conversions applied to its payload succeed.  A message with
`wellFormed = false` makes the receiver raise. -/
def Msg.wellFormed (msg : Msg) : Bool :=
  match msg.topic with
  | .nukiState => ((pyParseInt msg.payload).bind NukiLockState.ofInt).isSome
  | .nukiLockAction => ((pyParseInt msg.payload).bind NukiLockAction.ofInt).isSome
  | .nukiLockActionEvent => (parse_lock_action_event msg.payload).isSome
  | .nukiDoorsensorState => ((pyParseInt msg.payload).bind NukiDoorsensorState.ofInt).isSome
  | .sesamiRequestState => ((pyParseInt msg.payload).bind DoorRequestState.ofInt).isSome
  | .other => true

/-- The analogous guard for `door_controller.py`'s `mqtt_on_message` (which
handles only three topics; the rest take the logged `else` branch). -/
def Msg.wellFormedDC (msg : Msg) : Bool :=
  match msg.topic with
  | .nukiState => ((pyParseInt msg.payload).bind NukiLockState.ofInt).isSome
  | .nukiDoorsensorState => ((pyParseInt msg.payload).bind NukiDoorsensorState.ofInt).isSome
  | .sesamiRequestState => ((pyParseInt msg.payload).bind DC.DoorRequestState.ofInt).isSome
  | _ => true

/-- One press of the pushbutton under the toggle strategy: the successor
machine state. -/
def togglePress (now : Nat) (d : Door) : Door :=
  (d.on_pushbutton_pressed now PushbuttonStrategy.ToggleStrategy).1

end NukiSesami

namespace NukiSesami

/-! ## Supporting lemmas -/

/-- `unlatch` never mutates the machine; it only publishes. -/
theorem Door.unlatch_fst (d : Door) : d.unlatch.1 = d := by
  unfold Door.unlatch Door.request_lock_action
  split <;> rfl

/-- `close` only touches the two mode relays. -/
theorem Door.close_fst (d : Door) :
    d.close.1 = { d with openhold_mode := false, openclose_mode := true } := by
  unfold Door.close
  by_cases h : d.nuki_state = NukiLockState.locked ∨ d.nuki_state = NukiLockState.locking
  · simp only [if_pos h, Door.unlatch_fst]
  · simp only [if_neg h]

/-- The state setter never touches the relays. -/
theorem Door.state_setter_relays (now : Nat) (d : Door) (s : DoorState) :
    (d.state_setter now s).1.openhold_mode = d.openhold_mode ∧
      (d.state_setter now s).1.openclose_mode = d.openclose_mode := by
  unfold Door.state_setter
  split
  · exact ⟨rfl, rfl⟩
  · split <;> exact ⟨rfl, rfl⟩

/-- After `state_setter now d s` with `s ≠ d.state` the recorded state is `s`. -/
theorem Door.state_setter_state (now : Nat) (d : Door) (s : DoorState) (h : s ≠ d.state) :
    (d.state_setter now s).1.state = s := by
  unfold Door.state_setter
  rw [if_neg h]

/-- `on_lock_unlatched` leaves the door-opened latch set. -/
theorem Door.on_lock_unlatched_opened (d : Door) (t : DoorOpenTrigger) :
    (d.on_lock_unlatched t).1.door_opened = true := by
  unfold Door.on_lock_unlatched Door.openhold Door.open'
  split
  · assumption
  · dsimp only
    split <;> rfl

/-- With the latch already set, `on_lock_unlatched` is a complete no-op. -/
theorem Door.on_lock_unlatched_latched (d : Door) (t : DoorOpenTrigger)
    (h : d.door_opened = true) : d.on_lock_unlatched t = (d, []) := by
  unfold Door.on_lock_unlatched
  rw [if_pos h]

end NukiSesami

namespace NukiSesami

/-- The state setter never touches the lock-state field. -/
theorem Door.state_setter_nuki (now : Nat) (d : Door) (s : DoorState) :
    (d.state_setter now s).1.nuki_state = d.nuki_state := by
  unfold Door.state_setter
  split
  · rfl
  · split <;> rfl

/-- The effects of `unlatch`, as a function of the current lock state. -/
theorem Door.unlatch_snd (d : Door) :
    d.unlatch.2 =
      if d.nuki_state = NukiLockState.unlatching then []
      else [Effect.publishLockAction NukiLockAction.unlatch] := by
  unfold Door.unlatch Door.request_lock_action
  split <;> simp_all

/-- The state setter publishes no lock command. -/
theorem Door.state_setter_no_lock_cmd (now : Nat) (d : Door) (s : DoorState)
    (a : NukiLockAction) :
    Effect.publishLockAction a ∉ (d.state_setter now s).2 := by
  unfold Door.state_setter
  split
  · simp
  · dsimp only
    split <;> simp

/-- Delivering `unlatched` records the lock state and runs the
unlatch-confirmed handling. -/
theorem Door.on_lock_state_unlatched (d : Door) :
    d.on_lock_state NukiLockState.unlatched =
      Door.on_lock_unlatched { d with nuki_state := NukiLockState.unlatched }
        DoorOpenTrigger.lock_unlatched := by
  unfold Door.on_lock_state
  dsimp only
  rw [if_neg (by decide), if_pos rfl]

/-- Any delivery of `unlatched` leaves the door-opened latch set. -/
theorem Door.on_lock_state_unlatched_opened (d : Door) :
    (d.on_lock_state NukiLockState.unlatched).1.door_opened = true := by
  rw [Door.on_lock_state_unlatched]
  exact Door.on_lock_unlatched_opened _ _

/-- A second consecutive `unlatched` delivery produces no effect. -/
theorem Door.unlatched_twice_snd (d : Door) :
    ((d.on_lock_state NukiLockState.unlatched).1.on_lock_state NukiLockState.unlatched).2
      = [] := by
  rw [Door.on_lock_state_unlatched (d.on_lock_state NukiLockState.unlatched).1,
    Door.on_lock_unlatched_latched
      { (d.on_lock_state NukiLockState.unlatched).1 with nuki_state := NukiLockState.unlatched }
      DoorOpenTrigger.lock_unlatched (Door.on_lock_state_unlatched_opened d)]

/-- `on_lock_unlatched` preserves relay-mode exclusivity. -/
theorem Door.on_lock_unlatched_exclusive (d : Door) (t : DoorOpenTrigger)
    (h : relay_mode_exclusive d) : relay_mode_exclusive (d.on_lock_unlatched t).1 := by
  unfold Door.on_lock_unlatched Door.openhold Door.open'
  split
  · exact h
  · dsimp only
    split
    · exact Or.inl ⟨rfl, rfl⟩
    · exact h
end NukiSesami

namespace NukiSesami

/-- Exclusivity only depends on the two mode-relay fields. -/
theorem relay_mode_exclusive_of_eq (d e : Door)
    (h1 : e.openhold_mode = d.openhold_mode) (h2 : e.openclose_mode = d.openclose_mode)
    (h : relay_mode_exclusive d) : relay_mode_exclusive e := by
  unfold relay_mode_exclusive at *
  rw [h1, h2]
  exact h

/-- `on_doorsensor_state` never touches the relays. -/
theorem Door.on_doorsensor_relays (now : Nat) (d : Door) (s : NukiDoorsensorState) :
    (d.on_doorsensor_state now s).1.openhold_mode = d.openhold_mode ∧
      (d.on_doorsensor_state now s).1.openclose_mode = d.openclose_mode := by
  unfold Door.on_doorsensor_state
  dsimp only
  split
  · split
    · constructor
      · rw [(Door.state_setter_relays _ _ _).1, (Door.state_setter_relays _ _ _).1]
      · rw [(Door.state_setter_relays _ _ _).2, (Door.state_setter_relays _ _ _).2]
    · exact Door.state_setter_relays _ _ _
  · split
    · constructor
      · rw [(Door.state_setter_relays _ _ _).1]
      · rw [(Door.state_setter_relays _ _ _).2]
    · exact ⟨rfl, rfl⟩

/-- `on_door_request` preserves relay-mode exclusivity. -/
theorem Door.on_door_request_exclusive (now : Nat) (d : Door) (r : DoorRequestState)
    (h : relay_mode_exclusive d) : relay_mode_exclusive (d.on_door_request now r).1 := by
  unfold Door.on_door_request
  cases r with
  | none => exact h
  | open' =>
    dsimp only
    split
    · rw [Door.unlatch_fst]
      exact relay_mode_exclusive_of_eq d _ (Door.state_setter_relays _ _ _).1
        (Door.state_setter_relays _ _ _).2 h
    · exact h
  | close =>
    dsimp only
    split
    · rw [Door.close_fst]
      exact Or.inr ⟨rfl, rfl⟩
    · exact h
  | openhold =>
    dsimp only
    split
    · rw [Door.unlatch_fst]
      exact relay_mode_exclusive_of_eq d _ (Door.state_setter_relays _ _ _).1
        (Door.state_setter_relays _ _ _).2 h
    · exact h

/-- The pushbutton strategies preserve relay-mode exclusivity. -/
theorem Door.on_pushbutton_exclusive (now : Nat) (strategy : PushbuttonStrategy) (d : Door)
    (h : relay_mode_exclusive d) :
    relay_mode_exclusive (d.on_pushbutton_pressed now strategy).1 := by
  unfold Door.on_pushbutton_pressed
  cases strategy with
  | OpenHoldStrategy =>
    dsimp only
    split <;> split
    · rw [Door.unlatch_fst]
      exact relay_mode_exclusive_of_eq d _ (Door.state_setter_relays _ _ _).1
        (Door.state_setter_relays _ _ _).2 h
    · rw [Door.close_fst]
      exact Or.inr ⟨rfl, rfl⟩
    · rw [Door.unlatch_fst]
      exact relay_mode_exclusive_of_eq d _ (Door.state_setter_relays _ _ _).1
        (Door.state_setter_relays _ _ _).2 h
    · rw [Door.close_fst]
      exact Or.inr ⟨rfl, rfl⟩
  | OpenStrategy =>
    dsimp only
    rw [Door.unlatch_fst]
    exact relay_mode_exclusive_of_eq d _ (Door.state_setter_relays _ _ _).1
      (Door.state_setter_relays _ _ _).2 h
  | ToggleStrategy =>
    dsimp only
    split
    · rw [Door.unlatch_fst]
      exact relay_mode_exclusive_of_eq d _ (Door.state_setter_relays _ _ _).1
        (Door.state_setter_relays _ _ _).2 h
    · split
      · rw [Door.close_fst]
        exact Or.inr ⟨rfl, rfl⟩
      · exact relay_mode_exclusive_of_eq d _ (Door.state_setter_relays _ _ _).1
          (Door.state_setter_relays _ _ _).2 h

/-- `on_lock_state` preserves relay-mode exclusivity. -/
theorem Door.on_lock_state_exclusive (d : Door) (l : NukiLockState)
    (h : relay_mode_exclusive d) : relay_mode_exclusive (d.on_lock_state l).1 := by
  unfold Door.on_lock_state
  dsimp only
  split
  · exact h
  · split
    · exact Door.on_lock_unlatched_exclusive _ _ h
    · exact h

/-- One press of the toggle strategy advances the door state by
`DoorState.next`. -/
theorem togglePress_state (now : Nat) (d : Door) :
    (togglePress now d).state = DoorState.next d.state := by
  have hne : DoorState.next d.state ≠ d.state := by
    cases d.state <;> decide
  unfold togglePress Door.on_pushbutton_pressed
  dsimp only
  have hs := Door.state_setter_state now d (DoorState.next d.state) hne
  split
  · rw [Door.unlatch_fst]
    exact hs
  · split
    · rw [Door.close_fst]
      exact hs
    · exact hs

end NukiSesami

namespace NukiSesami

/-- A malformed message leaves `door_controller.py`'s machine untouched: the
`except` clause logs the exception and the callback returns. -/
theorem DC.mqtt_on_message_malformed (d : DC.DCDoor) (msg : Msg)
    (h : msg.wellFormedDC = false) : DC.mqtt_on_message d msg = (d, []) := by
  unfold DC.mqtt_on_message
  unfold Msg.wellFormedDC at h
  cases msg with
  | mk topic payload =>
    cases topic <;> dsimp only at h ⊢
    · cases hp : (pyParseInt payload).bind NukiLockState.ofInt with
      | none => rfl
      | some v => rw [hp] at h; simp at h
    · cases hp : (pyParseInt payload).bind NukiDoorsensorState.ofInt with
      | none => rfl
      | some v => rw [hp] at h; simp at h
    · cases hp : (pyParseInt payload).bind DC.DoorRequestState.ofInt with
      | none => rfl
      | some v => rw [hp] at h; simp at h

/-- A malformed message makes `door.py`'s receiver raise. -/
theorem mqtt_receiver_step_malformed (now : Nat) (d : Door) (msg : Msg)
    (h : msg.wellFormed = false) : mqtt_receiver_step now d msg = Except.error () := by
  unfold mqtt_receiver_step
  unfold Msg.wellFormed at h
  cases msg with
  | mk topic payload =>
    cases topic <;> dsimp only at h ⊢
    · cases hp : (pyParseInt payload).bind NukiLockState.ofInt with
      | none => rfl
      | some v => rw [hp] at h; simp at h
    · cases hp : (pyParseInt payload).bind NukiLockAction.ofInt with
      | none => rfl
      | some v => rw [hp] at h; simp at h
    · cases hp : parse_lock_action_event payload with
      | none => rfl
      | some v => rw [hp] at h; simp at h
    · cases hp : (pyParseInt payload).bind NukiDoorsensorState.ofInt with
      | none => rfl
      | some v => rw [hp] at h; simp at h
    · cases hp : (pyParseInt payload).bind DoorRequestState.ofInt with
      | none => rfl
      | some v => rw [hp] at h; simp at h
    · simp at h

end NukiSesami

namespace NukiSesami

/-- `controller.py`'s timer never invokes the handling when no action event
is present at any poll. -/
theorem Ctrl.timed_no_event (obs : List Ctrl.CtrlDoor)
    (h : ∀ o ∈ obs, o.nuki_action_event = Option.none) :
    (Ctrl.timed_lock_unlatched obs).1 ≠ Ctrl.TimerResult.invoked := by
  induction obs with
  | nil => simp [Ctrl.timed_lock_unlatched]
  | cons o rest ih =>
    unfold Ctrl.timed_lock_unlatched
    split
    · simp
    · split
      · split
        · exact absurd (h o (List.mem_cons_self o rest)) (by assumption)
        · exact ih (fun x hx => h x (List.mem_cons_of_mem o hx))
      · simp

end NukiSesami

namespace NukiSesami

/-! ## Claim theorems -/

/-- C10: assigning the `door.py` state setter the value it already holds is a
complete no-op — the machine (including the auto-close timestamp and the
door-opened latch, even when the value is `closed`) is unchanged and nothing
is published. -/
theorem state_setter_self_assignment_noop (now : Nat) (d : Door) :
    d.state_setter now d.state = (d, []) := by
  unfold Door.state_setter
  rw [if_pos rfl]

/-- C3: after every run of `controller.py`'s unlatch-confirmed handling (the
variant that consults the stored pending lock action event), the stored
event is `None`, so no later open-door decision can reuse it. -/
theorem action_event_single_use (d : Ctrl.CtrlDoor) :
    (Ctrl.on_lock_unlatched d).1.nuki_action_event = Option.none := by
  unfold Ctrl.on_lock_unlatched Ctrl.openhold Ctrl.open'
  cases h : d.nuki_action_event with
  | none => exact h
  | some ev =>
    dsimp only
    repeat' split
    all_goals rfl

/-- C5: a `close` door request in any door state other than `openhold`
(in particular in `closed`) is a silent no-op: the machine is unchanged, no
state or mode is published, and no lock command is issued. -/
theorem close_request_silent_noop (now : Nat) (d : Door)
    (h : d.state ≠ DoorState.openhold) :
    d.on_door_request now DoorRequestState.close = (d, []) := by
  unfold Door.on_door_request
  dsimp only
  rw [if_neg h]

/-- Witness for C5 at the initial machine state (which is `closed`). -/
theorem close_request_silent_noop_witness :
    Door.init.on_door_request 0 DoorRequestState.close = (Door.init, []) :=
  close_request_silent_noop 0 Door.init (by decide)

/-- C9: the toggle advance function is a 3-cycle — three applications are the
identity, both for the three-state model used by `logic.py`'s
`ToggleStrategy` and for `next_door_state` of `door_state.py` — and three
presses of the toggle pushbutton starting from `closed` pass through
`opened` and `openhold` and return to `closed`. -/
theorem toggle_round_trip :
    (∀ s : DoorState, s.next.next.next = s) ∧
    (∀ s : DC.DoorState,
      DC.next_door_state (DC.next_door_state (DC.next_door_state s)) = s) ∧
    (∀ (now : Nat) (d : Door),
      (togglePress now { d with state := DoorState.closed }).state = DoorState.opened ∧
      (togglePress now (togglePress now { d with state := DoorState.closed })).state
        = DoorState.openhold ∧
      (togglePress now (togglePress now
        (togglePress now { d with state := DoorState.closed }))).state
        = DoorState.closed) := by
  refine ⟨fun s => by cases s <;> decide, fun s => by cases s <;> decide, ?_⟩
  intro now d
  have h1 := togglePress_state now ({ d with state := DoorState.closed })
  have h2 := togglePress_state now (togglePress now { d with state := DoorState.closed })
  have h3 := togglePress_state now
    (togglePress now (togglePress now { d with state := DoorState.closed }))
  rw [h2, h1] at h3
  rw [h1] at h2
  refine ⟨?_, ?_, ?_⟩
  · rw [h1]
    exact (by decide : DoorState.next DoorState.closed = DoorState.opened)
  · rw [h2]
    exact (by decide :
      DoorState.next (DoorState.next DoorState.closed) = DoorState.openhold)
  · rw [h3]
    exact (by decide :
      DoorState.next (DoorState.next (DoorState.next DoorState.closed)) = DoorState.closed)

end NukiSesami

namespace NukiSesami

/-- C2: delivering `unlatched` while the door-opened latch is already set
only records the lock state — no relay pulse, no mode switch, nothing
published; and over two consecutive `unlatched` deliveries the second one
contributes no effect, so at most one opening actuation (opendoor pulse or
openhold-relay energize) ever happens, never two. -/
theorem unlatched_delivery_idempotent :
    (∀ d : Door, d.door_opened = true →
      d.on_lock_state NukiLockState.unlatched
        = ({ d with nuki_state := NukiLockState.unlatched }, [])) ∧
    (∀ d : Door,
      ((d.on_lock_state NukiLockState.unlatched).1.on_lock_state
        NukiLockState.unlatched).2 = []) ∧
    (∀ d : Door, d.door_opened = false →
      ((d.on_lock_state NukiLockState.unlatched).2 ++
        ((d.on_lock_state NukiLockState.unlatched).1.on_lock_state
          NukiLockState.unlatched).2).countP Effect.isDoorOpeningAct = 1) := by
  refine ⟨?_, Door.unlatched_twice_snd, ?_⟩
  · intro d h
    rw [Door.on_lock_state_unlatched,
      Door.on_lock_unlatched_latched { d with nuki_state := NukiLockState.unlatched }
        DoorOpenTrigger.lock_unlatched h]
  · intro d h
    rw [List.countP_append, Door.unlatched_twice_snd]
    rw [Door.on_lock_state_unlatched]
    unfold Door.on_lock_unlatched Door.openhold Door.open'
    rw [if_neg (by simp [h] :
      ¬({ d with nuki_state := NukiLockState.unlatched } : Door).door_opened = true)]
    dsimp only
    split
    · rfl
    · rfl

/-- Witness for C2 with the latch set on the initial machine state. -/
theorem unlatched_delivery_idempotent_witness :
    ({ Door.init with door_opened := true } : Door).on_lock_state NukiLockState.unlatched
      = ({ Door.init with door_opened := true, nuki_state := NukiLockState.unlatched }, []) :=
  unlatched_delivery_idempotent.1 { Door.init with door_opened := true } rfl

/-- C4: relay-mode exclusivity — `activate` establishes that exactly one of
the openhold-mode and openclose-mode relays is energized, `openhold` and
`close` re-establish it unconditionally, `open` preserves it, and every
event handler of the `door.py` machine (lock state, lock action, action
event, door sensor, door request, pushbutton under any strategy, and the
unlatch-timer wake-up) preserves it. -/
theorem relay_mode_exclusivity :
    (∀ d : Door, relay_mode_exclusive (Door.activate d).1) ∧
    (∀ (d : Door) (t : DoorOpenTrigger), relay_mode_exclusive (d.openhold t).1) ∧
    (∀ d : Door, relay_mode_exclusive d.close.1) ∧
    (∀ (d : Door) (t : DoorOpenTrigger),
      relay_mode_exclusive d → relay_mode_exclusive (d.open' t).1) ∧
    (∀ (now : Nat) (e : Event) (d : Door),
      relay_mode_exclusive d → relay_mode_exclusive (Door.handle now d e).1) := by
  refine ⟨?_, ?_, ?_, ?_, ?_⟩
  · intro d
    exact Or.inr ⟨rfl, rfl⟩
  · intro d t
    exact Or.inl ⟨rfl, rfl⟩
  · intro d
    rw [Door.close_fst]
    exact Or.inr ⟨rfl, rfl⟩
  · intro d t h
    exact h
  · intro now e d h
    cases e with
    | lockState l => exact Door.on_lock_state_exclusive d l h
    | lockAction a => exact h
    | lockActionEvent a t auth code au => exact h
    | doorsensorState s =>
      exact relay_mode_exclusive_of_eq d _ (Door.on_doorsensor_relays now d s).1
        (Door.on_doorsensor_relays now d s).2 h
    | doorRequest r => exact Door.on_door_request_exclusive now d r h
    | pushbutton strategy => exact Door.on_pushbutton_exclusive now strategy d h
    | unlatchTimerFires =>
      unfold Door.handle timed_lock_unlatched
      dsimp only
      split
      · exact h
      · exact Door.on_lock_unlatched_exclusive _ _ h

/-- Witness for C4: one handler step after activation keeps exclusivity. -/
theorem relay_mode_exclusivity_witness :
    relay_mode_exclusive
      (Door.handle 0 (Door.activate Door.init).1
        (Event.lockState NukiLockState.unlatched)).1 :=
  relay_mode_exclusivity.2.2.2.2 0 (Event.lockState NukiLockState.unlatched)
    (Door.activate Door.init).1 (by decide)

/-- C8 counterexample: `door.py`'s `activate` does set the safe relay
configuration but publishes no lock command at all — in particular it never
issues the `unlock` that the claim requires. -/
theorem activate_no_unlock_counterexample :
    (Door.activate Door.init).2.filter Effect.isLockActionCmd = [] ∧
    (Door.activate Door.init).1.opendoor = false ∧
    (Door.activate Door.init).1.openhold_mode = false ∧
    (Door.activate Door.init).1.openclose_mode = true := by
  decide

/-- C8 (amended): every run of `activate` puts the relays in the safe closed
configuration (opendoor off, openhold mode off, openclose mode on); the
`controller.py` variant additionally issues an `unlock` lock command to
cancel a stale unlatch request, while the `door.py` variant issues no lock
command at all. -/
theorem startup_bootstrap_amended :
    (∀ d : Door,
      (Door.activate d).1.opendoor = false ∧
      (Door.activate d).1.openhold_mode = false ∧
      (Door.activate d).1.openclose_mode = true ∧
      (Door.activate d).2.filter Effect.isLockActionCmd = []) ∧
    (∀ c : Ctrl.CtrlDoor,
      (Ctrl.activate c).1.opendoor = false ∧
      (Ctrl.activate c).1.openhold_mode = false ∧
      (Ctrl.activate c).1.openclose_mode = true ∧
      Effect.publishLockAction NukiLockAction.unlock ∈ (Ctrl.activate c).2) := by
  constructor
  · intro d
    exact ⟨rfl, rfl, rfl, rfl⟩
  · intro c
    refine ⟨rfl, rfl, rfl, ?_⟩
    unfold Ctrl.activate
    simp

end NukiSesami

namespace NukiSesami

/-- C1 counterexample: in `door.py` the fallback timer, waking while the lock
is still `unlatching` and no action event was ever received (the stored
event is `None`), nevertheless invokes the unlatch-confirmed handling and
pulses the opendoor relay. -/
theorem timed_lock_unlatched_no_event_counterexample :
    ({ Door.init with nuki_state := NukiLockState.unlatching } : Door).nuki_action_event
        = Option.none ∧
    (timed_lock_unlatched { Door.init with nuki_state := NukiLockState.unlatching }).2.2
        = true ∧
    Effect.pulseOpendoor ∈
      (timed_lock_unlatched { Door.init with nuki_state := NukiLockState.unlatching }).2.1 := by
  decide

/-- C1 (amended): `controller.py`'s timer behaves as claimed — it never
invokes the handling when no action event was received at any poll, it
invokes it when at wake time the lock is still `unlatching` and an event is
stored, and it exits without invoking when the lock has left `unlatching` —
whereas `door.py`'s timer invokes the handling exactly when the lock is
still `unlatching` at wake time, with no action-event requirement. -/
theorem unlatch_timeout_fallback_amended :
    (∀ d : Door,
      ((timed_lock_unlatched d).2.2 = true ↔ d.nuki_state = NukiLockState.unlatching)) ∧
    (∀ obs : List Ctrl.CtrlDoor, (∀ o ∈ obs, o.nuki_action_event = Option.none) →
      (Ctrl.timed_lock_unlatched obs).1 ≠ Ctrl.TimerResult.invoked) ∧
    (∀ (o : Ctrl.CtrlDoor) (rest : List Ctrl.CtrlDoor),
      o.nuki_state = NukiLockState.unlatching → o.nuki_action_event ≠ Option.none →
      (Ctrl.timed_lock_unlatched (o :: rest)).1 = Ctrl.TimerResult.invoked) ∧
    (∀ (o : Ctrl.CtrlDoor) (rest : List Ctrl.CtrlDoor),
      o.nuki_state ≠ NukiLockState.unlatching →
      (Ctrl.timed_lock_unlatched (o :: rest)).1 ≠ Ctrl.TimerResult.invoked) := by
  refine ⟨?_, Ctrl.timed_no_event, ?_, ?_⟩
  · intro d
    unfold timed_lock_unlatched
    split
    · rename_i hne
      simp [hne]
    · rename_i hne
      simp at hne
      simp [hne]
  · intro o rest h1 h2
    unfold Ctrl.timed_lock_unlatched
    rw [if_neg (by rw [h1]; decide), if_pos h1, if_pos h2]
  · intro o rest h
    unfold Ctrl.timed_lock_unlatched
    split
    · simp
    · simp [h]

/-- Witness for C1 (amended): a run of `controller.py`'s timer observing
`unlatching` with a stored mqtt-unlatch action event invokes the handling. -/
theorem unlatch_timeout_fallback_amended_witness :
    (Ctrl.timed_lock_unlatched
      [{ Ctrl.init with
          nuki_state := NukiLockState.unlatching
          nuki_action_event := some (NukiLockActionEvent.mk NukiLockAction.unlatch NukiLockTrigger.mqtt 0 0 false 0) }]).1
      = Ctrl.TimerResult.invoked :=
  unlatch_timeout_fallback_amended.2.2.1
    { Ctrl.init with
        nuki_state := NukiLockState.unlatching
        nuki_action_event := some (NukiLockActionEvent.mk NukiLockAction.unlatch NukiLockTrigger.mqtt 0 0 false 0) }
    [] rfl (by decide)

/-- C6 counterexample: in `door.py`'s receive loop a malformed payload
raises and aborts the loop, so a subsequent well-formed message — which on
its own would be processed and change the door state — is never processed. -/
theorem malformed_payload_counterexample :
    mqtt_receiver 0 Door.init
        [⟨Topic.nukiState, "garbage"⟩, ⟨Topic.sesamiRequestState, "3"⟩]
      = Except.error () ∧
    (mqtt_receiver 0 Door.init [⟨Topic.sesamiRequestState, "3"⟩]).toOption.map
        (fun p => p.1.state) = some DoorState.openhold :=
  ⟨rfl, rfl⟩

/-- C6 (amended): a malformed or out-of-range payload never changes machine
state in either variant; in the paho `door_controller.py` variant it is
caught, logged and discarded and subsequent messages are still processed,
while in the asyncio `door.py` variant the parse exception propagates and
terminates the receive loop, so subsequent messages are not processed. -/
theorem malformed_input_tolerance_amended :
    (∀ (d : DC.DCDoor) (msg : Msg), msg.wellFormedDC = false →
      DC.mqtt_on_message d msg = (d, [])) ∧
    (∀ (d : DC.DCDoor) (msg : Msg) (rest : List Msg), msg.wellFormedDC = false →
      DC.mqtt_on_message_list d (msg :: rest) = DC.mqtt_on_message_list d rest) ∧
    (∀ (now : Nat) (d : Door) (msg : Msg), msg.wellFormed = false →
      mqtt_receiver_step now d msg = Except.error ()) ∧
    (∀ (now : Nat) (d : Door) (msg : Msg) (rest : List Msg), msg.wellFormed = false →
      mqtt_receiver now d (msg :: rest) = Except.error ()) := by
  refine ⟨DC.mqtt_on_message_malformed, ?_, mqtt_receiver_step_malformed, ?_⟩
  · intro d msg rest h
    conv_lhs => unfold DC.mqtt_on_message_list
    rw [DC.mqtt_on_message_malformed d msg h]
    simp
  · intro now d msg rest h
    unfold mqtt_receiver
    rw [mqtt_receiver_step_malformed now d msg h]

/-- Witness for C6 (amended): the paho callback discards a non-integer
lock-state payload. -/
theorem malformed_input_tolerance_amended_witness :
    DC.mqtt_on_message DC.dcInit ⟨Topic.nukiState, "boo"⟩ = (DC.dcInit, []) :=
  malformed_input_tolerance_amended.1 DC.dcInit ⟨Topic.nukiState, "boo"⟩ rfl

/-- C7 counterexample: with the door `closed` and the lock already
`unlatched`, an `open` door request still publishes the `unlatch` lock
command — the code only suppresses it while the lock is `unlatching`. -/
theorem open_request_unlatched_counterexample :
    ({ Door.init with nuki_state := NukiLockState.unlatched } : Door).state
        = DoorState.closed ∧
    Effect.publishLockAction NukiLockAction.unlatch ∈
      (({ Door.init with nuki_state := NukiLockState.unlatched } : Door).on_door_request 0
        DoorRequestState.open').2 := by
  decide

/-- C7 (amended): an `open` door request while `closed` sets the door state
to `opened` and publishes the `unlatch` lock command precisely when the lock
is not already `unlatching` — in particular the command is still published
when the lock is already `unlatched`. -/
theorem open_request_behaviour_amended (now : Nat) (d : Door)
    (h : d.state = DoorState.closed) :
    (d.on_door_request now DoorRequestState.open').1.state = DoorState.opened ∧
    (Effect.publishLockAction NukiLockAction.unlatch ∈
        (d.on_door_request now DoorRequestState.open').2 ↔
      d.nuki_state ≠ NukiLockState.unlatching) := by
  unfold Door.on_door_request
  dsimp only
  rw [if_pos h]
  constructor
  · rw [Door.unlatch_fst]
    exact Door.state_setter_state now d DoorState.opened (by rw [h]; decide)
  · rw [List.mem_append, Door.unlatch_snd, Door.state_setter_nuki]
    constructor
    · rintro (hmem | hmem)
      · exact absurd hmem
          (Door.state_setter_no_lock_cmd now d DoorState.opened NukiLockAction.unlatch)
      · intro hc
        rw [if_pos hc] at hmem
        simp at hmem
    · intro hne
      right
      rw [if_neg hne]
      simp

/-- Witness for C7 (amended) at the initial machine state. -/
theorem open_request_behaviour_amended_witness :
    (Door.init.on_door_request 0 DoorRequestState.open').1.state = DoorState.opened ∧
    (Effect.publishLockAction NukiLockAction.unlatch ∈
        (Door.init.on_door_request 0 DoorRequestState.open').2 ↔
      Door.init.nuki_state ≠ NukiLockState.unlatching) :=
  open_request_behaviour_amended 0 Door.init rfl

end NukiSesami
